import Mathlib

/-!
Verification of the load-testing script `src/locust-teste/locustfile.py`.

The script defines one simulated-user class `Pokemon` with a class-level
constant `BASE_URL = "http://node-api:4444"` and one task method `list`
whose whole body is `self.client.get(f"{self.BASE_URL}/pokemon")`.

Shallow embedding: an HTTP request is a record of method, URL, headers,
body and authentication; `self.client.get url` builds a plain GET request
with no headers, no body and no credentials.  The outcome of the HTTP
call is supplied by the environment as a function `client` from the URL
to `Except HttpError HttpResponse`, so that both successful responses and
failures (timeouts, connection errors, non-2xx results surfaced by the
client) can be analysed.  A run of the `list` task records the list of
requests it issued, its Python return value (or the propagated error,
since the body contains no try/except), and the user state afterwards.

The only state this code owns is the resolved value of `self.BASE_URL`;
no method of the class ever assigns it, so the reachable states of a
simulated user are exactly the initial one.
-/

/-- An HTTP request as issued by the client: method, URL, header list,
optional body and optional basic-auth credentials. -/
structure HttpRequest where
  method : String
  url : String
  headers : List (String × String)
  body : Option String
  auth : Option (String × String)
deriving DecidableEq, Repr

/-- An HTTP response from the service under test (shape is external to
the repository; only its presence matters here). -/
structure HttpResponse where
  statusCode : Nat
  payload : String
deriving DecidableEq, Repr

/-- Failures the HTTP client can surface: timeout, connection error, or a
non-2xx status reported as a failure. -/
inductive HttpError where
  | timeout
  | connectionError (msg : String)
  | non2xx (code : Nat)
deriving DecidableEq, Repr

/-- `self.client.get url`: a GET request to `url` with no custom headers,
no body and no authentication credentials (locustfile.py line 7 passes
only the URL argument). -/
def clientGet (url : String) : HttpRequest :=
  { method := "GET", url := url, headers := [], body := none, auth := none }

/-- Class-level constant of `Pokemon` (locustfile.py line 4). -/
def Pokemon.BASE_URL : String := "http://node-api:4444"

/-- The state a `Pokemon` user instance owns: the value `self.BASE_URL`
resolves to for this instance. -/
structure PokemonState where
  base_url : String
deriving DecidableEq, Repr

/-- A fresh `Pokemon` instance: `self.BASE_URL` resolves to the class
attribute, since no instance attribute shadows it. -/
def Pokemon.init : PokemonState :=
  { base_url := Pokemon.BASE_URL }

/-- Record of one invocation of a task: the HTTP requests it issued, its
result (the Python return value, or the propagated client error), and the
instance state after the invocation. -/
structure TaskRun where
  requests : List HttpRequest
  result : Except HttpError (Option Unit)
  final : PokemonState
deriving Repr

/-- The `list` task (locustfile.py lines 5-7).  Its body is the single
statement `self.client.get(f"{self.BASE_URL}/pokemon")`: it issues one
GET to `self.BASE_URL ++ "/pokemon"`, ignores the response, assigns no
attribute, and falls off the end of the body returning `None`.  There is
no try/except, so an error raised by the client leaves the body as that
error. -/
def Pokemon.list (client : String → Except HttpError HttpResponse)
    (s : PokemonState) : TaskRun :=
  match client (s.base_url ++ "/pokemon") with
  | Except.error e =>
      { requests := [clientGet (s.base_url ++ "/pokemon")]
        result := Except.error e
        final := s }
  | Except.ok _resp =>
      { requests := [clientGet (s.base_url ++ "/pokemon")]
        result := Except.ok none
        final := s }

/-- Names of the user classes defined at module level of locustfile.py. -/
def moduleClasses : List String := ["Pokemon"]

/-- Names of the `@task`-decorated methods of the `Pokemon` class. -/
def Pokemon.taskNames : List String := ["list"]

/-- States a `Pokemon` user instance can be in: the fresh state, and any
state produced by running the only task against any client behaviour. -/
inductive Reachable : PokemonState → Prop where
  | init : Reachable Pokemon.init
  | step (client : String → Except HttpError HttpResponse) (s : PokemonState) :
      Reachable s → Reachable (Pokemon.list client s).final

theorem Pokemon.list_requests_eq (client : String → Except HttpError HttpResponse)
    (s : PokemonState) :
    (Pokemon.list client s).requests = [clientGet (s.base_url ++ "/pokemon")] := by
  unfold Pokemon.list
  cases client (s.base_url ++ "/pokemon") <;> rfl

theorem Pokemon.list_final_eq (client : String → Except HttpError HttpResponse)
    (s : PokemonState) : (Pokemon.list client s).final = s := by
  unfold Pokemon.list
  cases client (s.base_url ++ "/pokemon") <;> rfl

theorem reachable_eq_init (s : PokemonState) (h : Reachable s) : s = Pokemon.init := by
  induction h with
  | init => rfl
  | step client t _ht ih => rw [Pokemon.list_final_eq]; exact ih

/-- C1: every invocation of the `list` task issues its request to the
concatenation of the class constant `BASE_URL` and the literal
`"/pokemon"`, which is the string `"http://node-api:4444/pokemon"`. -/
theorem list_request_url_fixed (client : String → Except HttpError HttpResponse)
    (s : PokemonState) (h : Reachable s) :
    ((Pokemon.list client s).requests).map HttpRequest.url
        = [Pokemon.BASE_URL ++ "/pokemon"] ∧
      Pokemon.BASE_URL ++ "/pokemon" = "http://node-api:4444/pokemon" := by
  have hs0 := reachable_eq_init s h
  subst hs0
  rw [Pokemon.list_requests_eq]
  exact ⟨rfl, rfl⟩

theorem list_request_url_fixed_witness :
    ((Pokemon.list (fun _ => Except.error HttpError.timeout) Pokemon.init).requests).map
        HttpRequest.url = [Pokemon.BASE_URL ++ "/pokemon"] ∧
      Pokemon.BASE_URL ++ "/pokemon" = "http://node-api:4444/pokemon" :=
  list_request_url_fixed (fun _ => Except.error HttpError.timeout) Pokemon.init Reachable.init

/-- C2: every invocation of the `list` task issues exactly one request,
and that one request is a GET; no invocation issues zero or several. -/
theorem list_issues_exactly_one_get (client : String → Except HttpError HttpResponse)
    (s : PokemonState) :
    (Pokemon.list client s).requests.length = 1 ∧
      ((Pokemon.list client s).requests.countP (fun r => r.method == "GET")) = 1 := by
  rw [Pokemon.list_requests_eq]
  exact ⟨rfl, rfl⟩

/-- C3: every request issued by the `list` task uses method GET and
carries no body, no custom headers and no authentication credentials. -/
theorem list_request_plain_get (client : String → Except HttpError HttpResponse)
    (s : PokemonState) (r : HttpRequest) (hr : r ∈ (Pokemon.list client s).requests) :
    r.method = "GET" ∧ r.body = none ∧ r.headers = [] ∧ r.auth = none := by
  rw [Pokemon.list_requests_eq] at hr
  rw [List.mem_singleton] at hr
  subst hr
  exact ⟨rfl, rfl, rfl, rfl⟩

theorem list_request_plain_get_witness :
    (clientGet (Pokemon.init.base_url ++ "/pokemon")).method = "GET" ∧
      (clientGet (Pokemon.init.base_url ++ "/pokemon")).body = none ∧
      (clientGet (Pokemon.init.base_url ++ "/pokemon")).headers = [] ∧
      (clientGet (Pokemon.init.base_url ++ "/pokemon")).auth = none :=
  list_request_plain_get (fun _ => Except.error HttpError.timeout) Pokemon.init
    (clientGet (Pokemon.init.base_url ++ "/pokemon"))
    (by rw [Pokemon.list_requests_eq]; exact List.mem_singleton.mpr rfl)

/-- C4: the `list` task has no error handling of its own: when the client
call fails with any error, that error leaves the task body unchanged as
the task's outcome, and the task's state is unchanged. -/
theorem list_propagates_errors (client : String → Except HttpError HttpResponse)
    (s : PokemonState) (e : HttpError)
    (h : client (s.base_url ++ "/pokemon") = Except.error e) :
    (Pokemon.list client s).result = Except.error e ∧
      (Pokemon.list client s).final = s := by
  unfold Pokemon.list
  rw [h]
  exact ⟨rfl, rfl⟩

theorem list_propagates_errors_witness :
    (Pokemon.list (fun _ => Except.error HttpError.timeout) Pokemon.init).result
        = Except.error HttpError.timeout ∧
      (Pokemon.list (fun _ => Except.error HttpError.timeout) Pokemon.init).final
        = Pokemon.init :=
  list_propagates_errors (fun _ => Except.error HttpError.timeout) Pokemon.init
    HttpError.timeout rfl

/-- C5: the `list` task modifies no state owned by this code: the user
state (hence the value `self.BASE_URL` resolves to) is unchanged by every
invocation, and the class constant `BASE_URL` is the fixed string
`"http://node-api:4444"`. -/
theorem list_preserves_state (client : String → Except HttpError HttpResponse)
    (s : PokemonState) :
    (Pokemon.list client s).final = s ∧
      (Pokemon.list client s).final.base_url = s.base_url ∧
      Pokemon.BASE_URL = "http://node-api:4444" := by
  rw [Pokemon.list_final_eq]
  exact ⟨rfl, rfl, rfl⟩

/-- C6: the module defines exactly one user class, `Pokemon`, with
exactly one task method, `list`, and that task's entire observable
behaviour is the single GET request to the fixed endpoint
`"http://node-api:4444/pokemon"`. -/
theorem single_class_single_task :
    moduleClasses = ["Pokemon"] ∧ Pokemon.taskNames = ["list"] ∧
      ∀ (client : String → Except HttpError HttpResponse) (s : PokemonState),
        Reachable s →
          (Pokemon.list client s).requests = [clientGet "http://node-api:4444/pokemon"] := by
  refine ⟨rfl, rfl, fun client s h => ?_⟩
  have hs0 := reachable_eq_init s h
  subst hs0
  rw [Pokemon.list_requests_eq]
  rfl

theorem single_class_single_task_witness :
    moduleClasses = ["Pokemon"] ∧
      (Pokemon.list (fun _ => Except.ok (HttpResponse.mk 200 "")) Pokemon.init).requests
        = [clientGet "http://node-api:4444/pokemon"] :=
  ⟨single_class_single_task.1,
    single_class_single_task.2.2 (fun _ => Except.ok (HttpResponse.mk 200 ""))
      Pokemon.init Reachable.init⟩

/-- C7: the `list` task discards the response: whenever the client call
succeeds, the task returns `None` and leaves the state unchanged, and the
whole run is independent of which successful response was received. -/
theorem list_discards_response (client : String → Except HttpError HttpResponse)
    (s : PokemonState) (r : HttpResponse)
    (h : client (s.base_url ++ "/pokemon") = Except.ok r) :
    (Pokemon.list client s).result = Except.ok none ∧
      (Pokemon.list client s).final = s ∧
      ∀ (other : String → Except HttpError HttpResponse) (r' : HttpResponse),
        other (s.base_url ++ "/pokemon") = Except.ok r' →
          Pokemon.list other s = Pokemon.list client s := by
  refine ⟨?_, ?_, ?_⟩
  · unfold Pokemon.list; rw [h]
  · unfold Pokemon.list; rw [h]
  · intro other r' h'
    unfold Pokemon.list
    rw [h, h']

theorem list_discards_response_witness :
    (Pokemon.list (fun _ => Except.ok (HttpResponse.mk 200 "pikachu")) Pokemon.init).result
      = Except.ok none :=
  (list_discards_response (fun _ => Except.ok (HttpResponse.mk 200 "pikachu")) Pokemon.init
    (HttpResponse.mk 200 "pikachu") rfl).1

/-- C8: the `list` task is deterministic in the request it issues: any
two invocations, from any states any `Pokemon` instances can be in and
under any client behaviours, issue identical requests (hence identical
method, URL, headers and body). -/
theorem list_request_deterministic (client other : String → Except HttpError HttpResponse)
    (s t : PokemonState) (hs : Reachable s) (ht : Reachable t) :
    (Pokemon.list client s).requests = (Pokemon.list other t).requests := by
  have hs0 := reachable_eq_init s hs
  have ht0 := reachable_eq_init t ht
  subst hs0
  subst ht0
  rw [Pokemon.list_requests_eq, Pokemon.list_requests_eq]

theorem list_request_deterministic_witness :
    (Pokemon.list (fun _ => Except.error HttpError.timeout) Pokemon.init).requests
      = (Pokemon.list (fun _ => Except.ok (HttpResponse.mk 404 "")) Pokemon.init).requests :=
  list_request_deterministic (fun _ => Except.error HttpError.timeout)
    (fun _ => Except.ok (HttpResponse.mk 404 "")) Pokemon.init Pokemon.init
    Reachable.init Reachable.init

/-- C9: `BASE_URL` is the fixed string `"http://node-api:4444"` and is
never reassigned, so in every reachable state of a simulated user
`self.BASE_URL` still resolves to that same endpoint. -/
theorem base_url_constant_invariant :
    Pokemon.BASE_URL = "http://node-api:4444" ∧
      ∀ s : PokemonState, Reachable s → s.base_url = Pokemon.BASE_URL := by
  refine ⟨rfl, fun s h => ?_⟩
  have hs0 := reachable_eq_init s h
  subst hs0
  rfl

theorem base_url_constant_invariant_witness :
    Pokemon.init.base_url = Pokemon.BASE_URL :=
  base_url_constant_invariant.2 Pokemon.init Reachable.init
